import Mathlib

set_option maxRecDepth 8000

/-!
Shallow embedding of the bupt-auth login library (src/index.ts).

External I/O is modelled by passing the relevant HTTP responses in an
environment record; every modelled operation returns its result together
with the ordered list of network/callback events it performs, so that
"no request is issued" properties can be stated directly.
-/

namespace BuptAuth

/-- Characters of the JavaScript slice s.slice(a, b) for natural bounds. -/
def jsSlice (s : String) (a b : Nat) : String :=
  String.mk ((s.data.drop a).take (b - a))

/-- Drops the literal pattern from the front of a character list. -/
def dropLit : List Char → List Char → Option (List Char)
  | [], l => some l
  | _ :: _, [] => none
  | p :: ps, c :: cs => if c = p then dropLit ps cs else none

/-- Splits a character list around the first occurrence of a non-empty
needle, returning the parts before and after it. -/
def breakOn (needle : List Char) : List Char → Option (List Char × List Char)
  | [] => none
  | c :: cs =>
    match dropLit needle (c :: cs) with
    | some rest => some ([], rest)
    | none => (breakOn needle cs).map (fun p => (c :: p.1, p.2))

/-- Suffix of hay after the first occurrence of needle, if needle occurs. -/
def afterFirst? (hay needle : String) : Option String :=
  (breakOn needle.data hay.data).map (fun p => String.mk p.2)

/-- Text of s strictly before the first occurrence of close, if close occurs. -/
def upTo? (s close : String) : Option String :=
  (breakOn close.data s.data).map (fun p => String.mk p.1)

/-- Splits a character list at every occurrence of a separator character. -/
def splitChar (sep : Char) : List Char → List (List Char)
  | [] => [[]]
  | c :: cs =>
    if c = sep then [] :: splitChar sep cs
    else
      match splitChar sep cs with
      | [] => [[c]]
      | p :: ps => (c :: p) :: ps

/-- Suffix after the first occurrence of the given character. -/
def dropUntilChar (t : Char) : List Char → Option (List Char)
  | [] => none
  | c :: cs => if c = t then some cs else dropUntilChar t cs

/-- Characters until the terminator; fails at a line terminator, as the
JavaScript dot in a lazy group does outside dot-all mode. -/
def takeUntilChar (t : Char) : List Char → Option (List Char)
  | [] => none
  | c :: cs =>
    if c = t then some []
    else if c = '\n' ∨ c = '\r' then none
    else (takeUntilChar t cs).map (c :: ·)

/-- Suffix after the first occurrence of the pattern config-dot-captcha, the
dot standing for one arbitrary non-line-terminator character. -/
def findConfigCaptcha : List Char → Option (List Char)
  | [] => none
  | c :: cs =>
    (match dropLit "config".data (c :: cs) with
     | some (d :: ds) =>
       if d = '\n' ∨ d = '\r' then none
       else
         match dropLit "captcha".data ds with
         | some rest => some rest
         | none => none
     | _ => none).orElse (fun _ => findConfigCaptcha cs)

/-- The literal marker id-colon-space-quote searched inside the captcha
configuration block. -/
def idMarker : List Char := ['i', 'd', ':', ' ', Char.ofNat 39]

/-- Last occurrence of the id marker before the closing brace, as a greedy
negated character class followed by a literal matches; returns the suffix
after that occurrence. -/
def findLastIdQuote : List Char → Option (List Char) → Option (List Char)
  | [], acc => acc
  | c :: cs, acc =>
    if c = Char.ofNat 125 then acc
    else
      match dropLit idMarker (c :: cs) with
      | some rest => findLastIdQuote cs (some rest)
      | none => findLastIdQuote cs acc

/-- Opening literal of the hidden execution form field. -/
def executionMarker : String := "<input name=\"execution\" value=\""

/-- Capture group of the execution regex of getCookieAndExecution. -/
def extractExecution (html : String) : Option String :=
  match afterFirst? html executionMarker with
  | none => none
  | some rest => (takeUntilChar '"' rest.data).map String.mk

/-- Capture group of the captcha configuration regex of getCookieAndExecution. -/
def extractCaptchaId (html : String) : Option String :=
  match findConfigCaptcha html.data with
  | none => none
  | some rest =>
    match dropUntilChar (Char.ofNat 123) rest with
    | none => none
    | some afterBrace =>
      match findLastIdQuote afterBrace none with
      | none => none
      | some afterId => (takeUntilChar (Char.ofNat 39) afterId).map String.mk

/-- Opening literal of the alert-danger error block matched by login. -/
def alertDivMarker : String := "<div class=\"alert alert-danger\" id=\"errorDiv\">"

/-- Capture group of the dot-all alert-danger error regex of login. -/
def extractAlertDanger (html : String) : Option String :=
  match afterFirst? html alertDivMarker with
  | none => none
  | some s1 =>
    match afterFirst? s1 "<p>" with
    | none => none
    | some s2 =>
      match upTo? s2 "</p>" with
      | none => none
      | some msg =>
        match afterFirst? s2 "</p>" with
        | none => none
        | some s3 =>
          match afterFirst? s3 "</div>" with
          | none => none
          | some _ => some msg

/-- First semicolon-delimited segment of a header value, as indexing the
split at zero computes it: the text before the first semicolon, or the whole
value when no semicolon occurs. -/
def cookieFirstSegment (s : String) : String :=
  match breakOn [';'] s.data with
  | some p => String.mk p.1
  | none => s

/-- Models set-cookie header access, split on semicolon, first segment, with
the falsy check of the source: absent header or empty first segment fails. -/
def extractCookie (setCookie : Option String) : Option String :=
  match setCookie with
  | none => none
  | some s =>
    if cookieFirstSegment s = "" then none else some (cookieFirstSegment s)

/-- Numeric value of one hexadecimal digit character. -/
def hexVal? (c : Char) : Option Nat :=
  if c.isDigit then some (c.toNat - 48)
  else if 65 ≤ c.toNat ∧ c.toNat ≤ 70 then some (c.toNat - 55)
  else if 97 ≤ c.toNat ∧ c.toNat ≤ 102 then some (c.toNat - 87)
  else none

/-- Decodes form-urlencoded text: plus becomes space, valid percent escapes
become the escaped code point (multi-byte sequences approximated
code-point-wise), everything else passes through. -/
def decodeWwwForm : List Char → List Char
  | [] => []
  | c :: h1 :: h2 :: rest =>
    if c = '+' then ' ' :: decodeWwwForm (h1 :: h2 :: rest)
    else if c = '%' then
      match hexVal? h1, hexVal? h2 with
      | some a, some b => Char.ofNat (16 * a + b) :: decodeWwwForm rest
      | _, _ => c :: decodeWwwForm (h1 :: h2 :: rest)
    else c :: decodeWwwForm (h1 :: h2 :: rest)
  | c :: cs =>
    if c = '+' then ' ' :: decodeWwwForm cs
    else c :: decodeWwwForm cs

/-- String version of the form-urlencoded decoder. -/
def decodeComponent (s : String) : String := String.mk (decodeWwwForm s.data)

/-- Query part of a URL, without the leading question mark: text after the
first question mark, truncated at the first hash. -/
def urlSearch (u : String) : String :=
  match afterFirst? u "?" with
  | none => ""
  | some rest =>
    match breakOn ['#'] rest.data with
    | some p => String.mk p.1
    | none => rest

/-- Models URLSearchParams parsing of a query string. -/
def parseQuery (q : String) : List (String × String) :=
  (splitChar '&' q.data).filterMap fun part =>
    if part = [] then none
    else
      match breakOn ['='] part with
      | none => some (decodeComponent (String.mk part), "")
      | some p => some (decodeComponent (String.mk p.1), decodeComponent (String.mk p.2))

/-- Models URLSearchParams.get: first value bound to the key, if any. -/
def getParam (q k : String) : Option String :=
  ((parseQuery q).find? fun p => p.1 == k).map (fun p => p.2)

/-- UTF-8 bytes of one character. -/
def utf8Bytes (c : Char) : List UInt8 :=
  let n := c.toNat
  if n < 128 then [UInt8.ofNat n]
  else if n < 2048 then [UInt8.ofNat (192 + n / 64), UInt8.ofNat (128 + n % 64)]
  else if n < 65536 then
    [UInt8.ofNat (224 + n / 4096), UInt8.ofNat (128 + (n / 64) % 64), UInt8.ofNat (128 + n % 64)]
  else
    [UInt8.ofNat (240 + n / 262144), UInt8.ofNat (128 + (n / 4096) % 64),
     UInt8.ofNat (128 + (n / 64) % 64), UInt8.ofNat (128 + n % 64)]

/-- Uppercase hexadecimal digit character for a value below sixteen. -/
def hexDigitChar (n : Nat) : Char :=
  if n < 10 then Char.ofNat (48 + n) else Char.ofNat (55 + n)

/-- Percent-escaped form of one byte. -/
def percentByte (b : UInt8) : String :=
  String.mk ['%', hexDigitChar (b.toNat / 16), hexDigitChar (b.toNat % 16)]

/-- Characters encodeURIComponent leaves unescaped. -/
def isUriUnreserved (c : Char) : Bool :=
  c.isAlphanum || c == '-' || c == '_' || c == '.' || c == '!' || c == '~' ||
    c == '*' || c == Char.ofNat 39 || c == '(' || c == ')'

/-- Models the JavaScript encodeURIComponent function. -/
def encodeURIComponent (s : String) : String :=
  String.join (s.data.map fun c =>
    if isUriUnreserved c then String.singleton c
    else String.join ((utf8Bytes c).map percentByte))

/-- Role enumeration of the source, with its Chinese string values. -/
inductive Role where
  | Student
  | Teacher
  | Assistant
  deriving DecidableEq

/-- String value of a role, as the TypeScript enum defines it. -/
def Role.str : Role → String
  | .Student => "学生"
  | .Teacher => "教师"
  | .Assistant => "助教"

/-- RoleInfo record returned by the role-listing endpoint. -/
structure RoleInfo where
  id : String
  roleId : String
  roleAliase : String
  roleName : Role
  domainId : String
  domainName : String
  deriving DecidableEq

/-- UserInfo record returned by the OAuth token endpoint. -/
structure UserInfo where
  access_token : String
  token_type : String
  refresh_token : String
  expires_in : Nat
  scope : String
  tenant_id : String
  license : String
  loginId : String
  user_id : String
  user_name : String
  real_name : String
  avatar : String
  dept_id : String
  client_id : String
  account : String
  jti : String
  deriving DecidableEq

/-- Every distinct throw site of the source, with its dynamic payload. -/
inductive Err where
  | loginNoCookie
  | loginNoExecution
  | loginCaptchaUnconfigured
  | loginInvalidCredentials
  | loginAuthMessage (msg : String)
  | loginUnknown401
  | loginStatus (status : Nat) (statusText : String) (error : Option String)
  | loginNoLocation
  | loginNoTicket
  | loginTokenExchange (status : Nat) (statusText : String)
  | loginNoRoles
  | refreshRoleNotFound (role : Role)
  | refreshFailed (status : Nat) (statusText : String)
  | rolesFetchFailed (status : Nat) (statusText : String)
  | ocrNoText (detail : Option String)
  | external (name : String) (msg : String)
  | thrownNull
  deriving DecidableEq

/-- Parenthesised message tail of the status-mismatch login error, with the
truthiness check of the source. -/
def statusTail (error : Option String) : String :=
  match error with
  | some m => if m = "" then "" else "(" ++ m ++ ")"
  | none => ""

/-- Exact message string carried by each thrown error of the source. -/
def Err.message : Err → String
  | .loginNoCookie => "登录失败(-1): 无法获取到 cookie"
  | .loginNoExecution => "登录失败(-2): 无法获取到 execution"
  | .loginCaptchaUnconfigured => "登录失败(-3): 需要验证码，但未配置验证码处理方式"
  | .loginInvalidCredentials => "登录失败(3): 用户名或者密码错误"
  | .loginAuthMessage m => "登录失败(4): " ++ m
  | .loginUnknown401 => "登录失败(2): 未知错误"
  | .loginStatus st stx e => "登录失败(1): " ++ (toString st ++ (" " ++ (stx ++ statusTail e)))
  | .loginNoLocation => "登录失败(5): 无法获取到重定向目标"
  | .loginNoTicket => "登录失败(6): 无法获取到ticket"
  | .loginTokenExchange st stx => "登录失败(7): " ++ (toString st ++ (" " ++ stx))
  | .loginNoRoles => "登录失败(8): 用户无任何角色"
  | .refreshRoleNotFound r => "用户不存在角色 " ++ r.str
  | .refreshFailed st stx => "刷新 token 失败: " ++ (toString st ++ (" " ++ stx))
  | .rolesFetchFailed st stx => "获取用户角色失败: " ++ (toString st ++ (" " ++ stx))
  | .ocrNoText d => "OCR 识别失败: " ++ d.getD "Unknown error"
  | .external _ m => m
  | .thrownNull => "null"

/-- Error-class name of each thrown error of the source. -/
def Err.className : Err → String
  | .ocrNoText _ => "OCRError"
  | .external n _ => n
  | .thrownNull => "null"
  | _ => "LoginError"

/-- Error taxonomy of the specification. -/
inductive ErrKind where
  | protocolError
  | invalidCredentialsError
  | authServerError
  | configError
  | ocrError
  | roleNotFoundError
  | noRoleError
  | externalError
  deriving DecidableEq

/-- Modelled from the spec: the refinement map sending each concrete error of
the source to the error kind the specification taxonomy assigns to it. -/
def Err.kind : Err → ErrKind
  | .loginNoCookie => .protocolError
  | .loginNoExecution => .protocolError
  | .loginCaptchaUnconfigured => .configError
  | .loginInvalidCredentials => .invalidCredentialsError
  | .loginAuthMessage _ => .authServerError
  | .loginUnknown401 => .authServerError
  | .loginStatus _ _ _ => .authServerError
  | .loginNoLocation => .protocolError
  | .loginNoTicket => .protocolError
  | .loginTokenExchange _ _ => .authServerError
  | .loginNoRoles => .noRoleError
  | .refreshRoleNotFound _ => .roleNotFoundError
  | .refreshFailed _ _ => .authServerError
  | .rolesFetchFailed _ _ => .authServerError
  | .ocrNoText _ => .ocrError
  | .external _ _ => .externalError
  | .thrownNull => .externalError

/-- Network or callback events performed by the modelled operations, in order. -/
inductive Event where
  | fetchLoginPage
  | callOnCaptcha (url : String) (cookie : String)
  | fetchOcr (url : String) (token : String) (cookie : String)
  | postCredentials (body : String) (cookie : String)
  | postTokenTicket (ticket : String)
  | fetchRoles (token : String)
  | postTokenRefresh (refreshToken : String) (identity : Option String)
  deriving DecidableEq

/-- A JSON-bearing HTTP response as the code observes it. -/
structure HttpJsonResp (α : Type) where
  ok : Bool
  status : Nat
  statusText : String
  payload : α
  deriving DecidableEq

/-- Body of one OCR endpoint response. -/
structure OcrData where
  text : Option String
  detail : Option String
  deriving DecidableEq

/-- OCR configuration of LoginOptions. -/
structure OcrConfig where
  token : String
  maxRetries : Option Nat

/-- LoginOptions of the source; the captcha callback is modelled as a pure
function that either returns text or throws. -/
structure LoginOptions where
  role : Option Role
  onCaptcha : Option (String → String → Except Err String)
  ocr : Option OcrConfig

/-- Response to the login page request. -/
structure PageResp where
  setCookie : Option String
  body : String
  deriving DecidableEq

/-- Response to the credential-submission request. -/
structure SubmitResp where
  status : Nat
  statusText : String
  body : String
  location : Option String
  deriving DecidableEq

/-- Session data returned by getCookieAndExecution. -/
structure SessionData where
  id : String
  cookie : String
  execution : String
  captcha : Option String
  deriving DecidableEq

/-- Environment of one refresh call: the two backend responses it may consume. -/
structure RefreshEnv where
  rolesResp : HttpJsonResp (List RoleInfo)
  tokenResp : HttpJsonResp UserInfo

/-- Environment of one login call: every external response it may consume.
The OCR endpoint response is indexed by attempt number. -/
structure LoginEnv where
  page : PageResp
  rand : String
  ocrResp : Nat → Except Err OcrData
  submit : SubmitResp
  tokenTicketResp : HttpJsonResp UserInfo
  rolesResp : HttpJsonResp (List RoleInfo)
  refreshRolesResp : HttpJsonResp (List RoleInfo)
  refreshTokenResp : HttpJsonResp UserInfo

/-- Result record of login: the refreshed token bundle plus the role list. -/
structure LoginResult where
  info : UserInfo
  roles : List RoleInfo
  deriving DecidableEq

/-- Outcome of one OCR fetch: network failure propagates, a missing or empty
text field throws the OCRError of the source, otherwise the text is returned. -/
def ocrOnce (r : Except Err OcrData) : Except Err String :=
  match r with
  | .error e => .error e
  | .ok d =>
    match d.text with
    | none => .error (.ocrNoText d.detail)
    | some t => if t = "" then .error (.ocrNoText d.detail) else .ok t

/-- Retry loop of the OCR strategy: f gives the outcome of each attempt,
the second argument is the current attempt index, the third the remaining
iteration count. Returns the result together with the total number of
attempts performed. -/
def ocrLoopGo (f : Nat → Except Err String) : Nat → Nat → Except Err String × Nat
  | _, 0 => (.error .thrownNull, 0)
  | i, r + 1 =>
    match f i with
    | .ok t => (.ok t, i + 1)
    | .error e => if r = 0 then (.error e, i + 1) else ocrLoopGo f (i + 1) r

/-- OCR retry loop started at attempt zero with the given bound. -/
def ocrRun (f : Nat → Except Err String) (maxRetries : Nat) : Except Err String × Nat :=
  ocrLoopGo f 0 maxRetries

/-- Effective retry bound: any falsy configured value is replaced by three. -/
def effectiveMaxRetries : Option Nat → Nat
  | none => 3
  | some 0 => 3
  | some (n + 1) => n + 1

/-- Challenge image URL built by getCookieAndExecution. -/
def captchaUrlOf (id rand : String) : String :=
  "https://auth.bupt.edu.cn/authserver/captcha?captchaId=" ++ id ++ "&r=" ++ jsSlice rand 2 7

/-- Model of getCookieAndExecution: login page fetch, cookie and execution
extraction, optional captcha resolution via callback or OCR retry loop. -/
def getCookieAndExecution (env : LoginEnv) (options : Option LoginOptions) :
    Except Err SessionData × List Event :=
  let ev0 := [Event.fetchLoginPage]
  match extractCookie env.page.setCookie with
  | none => (.error .loginNoCookie, ev0)
  | some cookie =>
    match extractExecution env.page.body with
    | none => (.error .loginNoExecution, ev0)
    | some execution =>
      match extractCaptchaId env.page.body with
      | none => (.ok ⟨"", cookie, execution, none⟩, ev0)
      | some cid =>
        if cid = "" then (.ok ⟨"", cookie, execution, none⟩, ev0)
        else
          let url := captchaUrlOf cid env.rand
          match options.bind (fun o => o.onCaptcha) with
          | some cb =>
            (match cb url cookie with
             | .ok t => .ok ⟨cid, cookie, execution, some t⟩
             | .error e => .error e,
             ev0 ++ [Event.callOnCaptcha url cookie])
          | none =>
            match options.bind (fun o => o.ocr) with
            | some cfg =>
              let n := effectiveMaxRetries cfg.maxRetries
              let run := ocrRun (fun i => ocrOnce (env.ocrResp i)) n
              (match run.1 with
               | .ok t => .ok ⟨cid, cookie, execution, some t⟩
               | .error e => .error e,
               ev0 ++ (List.range run.2).map (fun _ => Event.fetchOcr url cfg.token cookie))
            | none => (.error .loginCaptchaUnconfigured, ev0)

/-- Model of getUserRoles: one request to the role-listing endpoint; a non-ok
response throws, otherwise the data field is returned unchanged. -/
def getUserRoles (resp : HttpJsonResp (List RoleInfo)) (token : String) :
    Except Err (List RoleInfo) × List Event :=
  (if resp.ok then .ok resp.payload
   else .error (.rolesFetchFailed resp.status resp.statusText),
   [Event.fetchRoles token])

/-- Outcome of the token-endpoint request inside refresh. -/
def refreshTokenOutcome (resp : HttpJsonResp UserInfo) : Except Err UserInfo :=
  if resp.ok then .ok resp.payload
  else .error (.refreshFailed resp.status resp.statusText)

/-- Model of refresh: with a role, first lists the caller roles and resolves
the identity of the requested role, failing before any token request when the
role is absent; then posts to the token endpoint. -/
def refresh (env : RefreshEnv) (refresh_token : String) (role : Option Role) :
    Except Err UserInfo × List Event :=
  match role with
  | none => (refreshTokenOutcome env.tokenResp, [Event.postTokenRefresh refresh_token none])
  | some ro =>
    match getUserRoles env.rolesResp refresh_token with
    | (.error e, ev) => (.error e, ev)
    | (.ok roles, ev) =>
      match roles.find? (fun r => decide (r.roleName = ro)) with
      | none => (.error (.refreshRoleNotFound ro), ev)
      | some ri => (refreshTokenOutcome env.tokenResp, ev ++ [Event.postTokenRefresh refresh_token (some ri.id)])

/-- Form body posted by login, exactly as the source concatenates it. -/
def fullSubmitBody (username password : String) (captcha : Option String) (execution : String) : String :=
  "username=" ++ encodeURIComponent username ++ "&password=" ++ encodeURIComponent password ++
    (match captcha with
     | some c => if c = "" then "" else "&captcha=" ++ c
     | none => "") ++
    "&submit=%E7%99%BB%E5%BD%95&type=username_password&execution=" ++ execution ++ "&_eventId=submit"

/-- Interpretation of the credential-submission response in login: non-302
statuses throw per the alert-danger message and status, 302 yields the ticket
of the Location URL or throws when it is missing. -/
def submitOutcome (resp : SubmitResp) : Except Err String :=
  if resp.status ≠ 302 then
    let error := extractAlertDanger resp.body
    if resp.status = 401 then
      match error with
      | some m =>
        if m = "" then .error .loginUnknown401
        else if m = "Invalid credentials." then .error .loginInvalidCredentials
        else .error (.loginAuthMessage m)
      | none => .error .loginUnknown401
    else .error (.loginStatus resp.status resp.statusText error)
  else
    match resp.location with
    | none => .error .loginNoLocation
    | some loc =>
      if loc = "" then .error .loginNoLocation
      else
        match getParam (urlSearch loc) "ticket" with
        | none => .error .loginNoTicket
        | some t => if t = "" then .error .loginNoTicket else .ok t

/-- Model of login: bootstrap, credential submission, ticket exchange, role
listing, and role-scoped refresh, with the event trace of the whole flow. -/
def login (env : LoginEnv) (username password : String) (options : Option LoginOptions) :
    Except Err LoginResult × List Event :=
  match getCookieAndExecution env options with
  | (.error e, ev) => (.error e, ev)
  | (.ok sd, ev0) =>
    let body := fullSubmitBody username password sd.captcha sd.execution
    let ev1 := ev0 ++ [Event.postCredentials body sd.cookie]
    match submitOutcome env.submit with
    | .error e => (.error e, ev1)
    | .ok ticket =>
      let ev2 := ev1 ++ [Event.postTokenTicket ticket]
      if env.tokenTicketResp.ok then
        let userInfo := env.tokenTicketResp.payload
        match getUserRoles env.rolesResp userInfo.refresh_token with
        | (.error e, evr) => (.error e, ev2 ++ evr)
        | (.ok roles, evr) =>
          let ev3 := ev2 ++ evr
          match roles with
          | [] => (.error .loginNoRoles, ev3)
          | r0 :: _ =>
            let target := (options.bind (fun o => o.role)).getD r0.roleName
            match refresh ⟨env.refreshRolesResp, env.refreshTokenResp⟩ userInfo.refresh_token (some target) with
            | (.error e, evf) => (.error e, ev3 ++ evf)
            | (.ok info2, evf) => (.ok ⟨info2, roles⟩, ev3 ++ evf)
      else (.error (.loginTokenExchange env.tokenTicketResp.status env.tokenTicketResp.statusText), ev2)

/-- Decidable equality for results, so concrete runs can be checked by
evaluation. -/
def exceptDecEq {ε α : Type} [DecidableEq ε] [DecidableEq α] :
    DecidableEq (Except ε α) := fun x y =>
  match x, y with
  | .ok a, .ok b =>
    if h : a = b then .isTrue (h ▸ rfl) else .isFalse (fun hh => h (Except.ok.inj hh))
  | .error a, .error b =>
    if h : a = b then .isTrue (h ▸ rfl) else .isFalse (fun hh => h (Except.error.inj hh))
  | .ok _, .error _ => .isFalse (fun hh => Except.noConfusion hh)
  | .error _, .ok _ => .isFalse (fun hh => Except.noConfusion hh)

instance {ε α : Type} [DecidableEq ε] [DecidableEq α] : DecidableEq (Except ε α) :=
  exceptDecEq

/-- A five-character all-digit string, the shape the specification ascribes to
the cache-busting suffix. -/
def isFiveDigit (s : String) : Prop :=
  s.length = 5 ∧ ∀ c ∈ s.data, c.isDigit = true

instance (s : String) : Decidable (isFiveDigit s) := by
  unfold isFiveDigit; infer_instance

/-- Single-quote character as a string, for building concrete test pages. -/
def sq : String := String.mk [Char.ofNat 39]

/-- Opening-brace character as a string. -/
def lbr : String := String.mk [Char.ofNat 123]

/-- Closing-brace character as a string. -/
def rbr : String := String.mk [Char.ofNat 125]

/-- A login page body with an execution value and no captcha block. -/
def pageBodyPlain : String :=
  "<html><body><input name=\"execution\" value=\"EXEC1\"/></body></html>"

/-- A login page body with an execution value and a captcha block of id cap1. -/
def pageBodyCaptcha : String :=
  "<html><input name=\"execution\" value=\"EXEC1\"/><script>config.captcha = " ++ lbr ++
    " id: " ++ sq ++ "cap1" ++ sq ++ " " ++ rbr ++ ";</script></html>"

/-- A login page body whose execution input carries an empty value attribute. -/
def pageBodyEmptyExec : String :=
  "<html><input name=\"execution\" value=\"\"/></html>"

/-- Login page response with cookie and no captcha. -/
def pagePlain : PageResp :=
  { setCookie := some "JSESSIONID=x; Path=/; HttpOnly", body := pageBodyPlain }

/-- Login page response with cookie and a captcha block. -/
def pageCaptcha : PageResp :=
  { setCookie := some "JSESSIONID=x; Path=/; HttpOnly", body := pageBodyCaptcha }

/-- Login page response with no set-cookie header. -/
def pageNoCookie : PageResp := { setCookie := none, body := pageBodyPlain }

/-- Login page response with an empty execution value. -/
def pageEmptyExec : PageResp :=
  { setCookie := some "JSESSIONID=x; Path=/; HttpOnly", body := pageBodyEmptyExec }

/-- A concrete token bundle. -/
def sampleUser : UserInfo :=
  { access_token := "AT1", token_type := "bearer", refresh_token := "RT1",
    expires_in := 3600, scope := "all", tenant_id := "000000", license := "L",
    loginId := "LID", user_id := "UID", user_name := "2023000000",
    real_name := "张三", avatar := "", dept_id := "D", client_id := "portal",
    account := "2023000000", jti := "J" }

/-- A concrete student role entry. -/
def sampleRole : RoleInfo :=
  { id := "ID1", roleId := "R1", roleAliase := "student", roleName := Role.Student,
    domainId := "DOM1", domainName := "main" }

/-- Successful token endpoint response. -/
def okUser : HttpJsonResp UserInfo :=
  { ok := true, status := 200, statusText := "OK", payload := sampleUser }

/-- Successful role-listing response with one student role. -/
def okRoles : HttpJsonResp (List RoleInfo) :=
  { ok := true, status := 200, statusText := "OK", payload := [sampleRole] }

/-- Error page body with the given alert-danger message. -/
def body401 (msg : String) : String :=
  "<html><div class=\"alert alert-danger\" id=\"errorDiv\"><span>x</span><p>" ++ msg ++
    "</p><span>y</span></div></html>"

/-- Successful credential-submission redirect carrying a ticket. -/
def submit302 : SubmitResp :=
  { status := 302, statusText := "Found", body := "",
    location := some "https://ucloud.bupt.edu.cn/?ticket=ST-123" }

/-- Redirect whose location has no ticket parameter. -/
def submit302NoTicket : SubmitResp :=
  { status := 302, statusText := "Found", body := "",
    location := some "https://ucloud.bupt.edu.cn/?foo=bar" }

/-- Unauthorized response with the invalid-credentials message. -/
def submit401Invalid : SubmitResp :=
  { status := 401, statusText := "Unauthorized", body := body401 "Invalid credentials.",
    location := none }

/-- Unauthorized response with a different server message. -/
def submit401Other : SubmitResp :=
  { status := 401, statusText := "Unauthorized", body := body401 "Account locked.",
    location := none }

/-- Unauthorized response with no alert-danger block. -/
def submit401NoMsg : SubmitResp :=
  { status := 401, statusText := "Unauthorized", body := "<html></html>", location := none }

/-- Server-error response with no alert-danger block. -/
def submit500 : SubmitResp :=
  { status := 500, statusText := "Server Error", body := "<html>oops</html>", location := none }

/-- The error used for failed OCR network fetches in the test environments. -/
def ocrFailErr : Err := .external "TypeError" "fetch failed"

/-- Environment where every stage succeeds and no captcha is required. -/
def envHappy : LoginEnv :=
  { page := pagePlain, rand := "0.1234567890123",
    ocrResp := fun _ => Except.error ocrFailErr,
    submit := submit302, tokenTicketResp := okUser, rolesResp := okRoles,
    refreshRolesResp := okRoles, refreshTokenResp := okUser }

/-- Environment with a captcha page whose OCR succeeds on the third attempt. -/
def envOcrThird : LoginEnv :=
  { envHappy with
    page := pageCaptcha
    ocrResp := fun i => if i = 2 then Except.ok ⟨some "T3", none⟩ else Except.error ocrFailErr }

/-- OCR-strategy options with three retries. -/
def optsOcr3 : LoginOptions := ⟨none, none, some ⟨"tok", some 3⟩⟩

/-- OCR-strategy options with a configured retry bound of zero. -/
def optsOcr0 : LoginOptions := ⟨none, none, some ⟨"tok", some 0⟩⟩

/-- Callback-strategy options returning a fixed captcha text. -/
def optsCb : LoginOptions := ⟨none, some (fun _ _ => Except.ok "X1"), none⟩

/-- Options configuring both the callback and the OCR strategy. -/
def optsBoth : LoginOptions := ⟨none, some (fun _ _ => Except.ok "X1"), some ⟨"tok", none⟩⟩

/-- Environment with a captcha page, used for the configuration-error cases. -/
def envCaptcha : LoginEnv := { envHappy with page := pageCaptcha }

/-- Environment whose login page has no set-cookie header. -/
def envNoCookie : LoginEnv := { envHappy with page := pageNoCookie }

/-- Environment whose login page carries an empty execution value. -/
def envEmptyExec : LoginEnv := { envHappy with page := pageEmptyExec, submit := submit401NoMsg }

/-- Environment with a captcha page and the random source value of one half. -/
def envRandHalf : LoginEnv := { envHappy with page := pageCaptcha, rand := "0.5" }

/-- Environment with a captcha page where every OCR attempt fails. -/
def envOcrAllFail : LoginEnv := { envHappy with page := pageCaptcha }

/-- Two strings with equal-length distinct prefixes differ for all suffixes. -/
theorem append_left_ne {p q : String} (hlen : p.data.length = q.data.length)
    (hne : p ≠ q) (a b : String) : p ++ a ≠ q ++ b := by
  intro h
  have hd : p.data ++ a.data = q.data ++ b.data := by
    simpa [String.data_append] using congrArg String.data h
  exact hne (String.ext (List.append_inj hd hlen).1)

/-- A successfully extracted cookie is never the empty string. -/
theorem extractCookie_ne_empty {o : Option String} {c : String}
    (h : extractCookie o = some c) : c ≠ "" := by
  cases o with
  | none => simp [extractCookie] at h
  | some s =>
    simp only [extractCookie] at h
    by_cases hx : cookieFirstSegment s = ""
    · simp [hx] at h
    · simp only [if_neg hx] at h
      injection h with h2
      subst h2
      exact hx

/-- A pair whose first component is known is the evident pair. -/
theorem pair_of_fst {α β : Type} {p : α × β} {a : α} (h : p.1 = a) : p = (a, p.2) := by
  cases p
  cases h
  rfl

/-- OCR loop: if every attempt before attempt s + j fails and attempt s + j
returns text, the loop started at s returns that text after attempt s + j. -/
theorem ocrLoopGo_first_ok (f : Nat → Except Err String) :
    ∀ (j r s : Nat) (t : String), j < r →
      (∀ i, i < j → ∃ e, f (s + i) = Except.error e) →
      f (s + j) = Except.ok t →
      ocrLoopGo f s r = (Except.ok t, s + j + 1) := by
  intro j
  induction j with
  | zero =>
    intro r s t hjr herr hok
    cases r with
    | zero => omega
    | succ r0 =>
      rw [Nat.add_zero] at hok
      simp [ocrLoopGo, hok]
  | succ j ih =>
    intro r s t hjr herr hok
    cases r with
    | zero => omega
    | succ r0 =>
      obtain ⟨e0, he0⟩ := herr 0 (Nat.succ_pos j)
      rw [Nat.add_zero] at he0
      have hr0 : r0 ≠ 0 := by omega
      have hrec := ih r0 (s + 1) t (by omega)
        (fun i hi => by
          obtain ⟨e, he⟩ := herr (i + 1) (by omega)
          exact ⟨e, by rw [← he]; congr 1; omega⟩)
        (by rw [← hok]; congr 1; omega)
      simp only [ocrLoopGo, he0, if_neg hr0, hrec, Prod.mk.injEq]
      first
        | omega
        | exact ⟨trivial, by omega⟩

/-- OCR loop: if every attempt fails, the loop returns the last attempt's
error after exhausting the bound. -/
theorem ocrLoopGo_all_fail (f : Nat → Except Err String) :
    ∀ (r s : Nat) (e : Err), 0 < r →
      (∀ i, i < r - 1 → ∃ e2, f (s + i) = Except.error e2) →
      f (s + (r - 1)) = Except.error e →
      ocrLoopGo f s r = (Except.error e, s + r) := by
  intro r
  induction r with
  | zero => intro s e h; omega
  | succ r0 ih =>
    intro s e _ herr hlast
    cases r0 with
    | zero =>
      rw [Nat.add_zero] at hlast
      simp [ocrLoopGo, hlast]
    | succ r1 =>
      obtain ⟨e0, he0⟩ := herr 0 (by omega)
      rw [Nat.add_zero] at he0
      have hne : r1 + 1 ≠ 0 := by omega
      have hrec := ih (s + 1) e (by omega)
        (fun i hi => by
          obtain ⟨e2, he2⟩ := herr (i + 1) (by omega)
          exact ⟨e2, by rw [← he2]; congr 1; omega⟩)
        (by rw [← hlast]; congr 1; omega)
      rw [ocrLoopGo]
      simp only [he0, if_neg hne, hrec, Prod.mk.injEq]
      first
        | omega
        | exact ⟨trivial, by omega⟩

/-- OCR loop with a positive bound performs at least one attempt. -/
theorem ocrLoopGo_snd_ge (f : Nat → Except Err String) :
    ∀ (r s : Nat), 0 < r → s + 1 ≤ (ocrLoopGo f s r).2 := by
  intro r
  induction r with
  | zero => intro s h; omega
  | succ r0 ih =>
    intro s _
    cases hf : f s with
    | ok t => simp [ocrLoopGo, hf]
    | error e =>
      by_cases hr : r0 = 0
      · subst hr; simp [ocrLoopGo, hf]
      · have := ih (s + 1) (by omega)
        simp only [ocrLoopGo, hf, if_neg hr]
        omega

/-- The effective retry bound is always positive. -/
theorem effectiveMaxRetries_pos (o : Option Nat) : 0 < effectiveMaxRetries o := by
  cases o with
  | none => simp [effectiveMaxRetries]
  | some n => cases n <;> simp [effectiveMaxRetries]

/-- A successful bootstrap carries exactly the extracted cookie and execution. -/
theorem getCookieAndExecution_ok_inv {env : LoginEnv} {opts : Option LoginOptions}
    {sd : SessionData} (h : (getCookieAndExecution env opts).1 = Except.ok sd) :
    extractCookie env.page.setCookie = some sd.cookie ∧
    extractExecution env.page.body = some sd.execution := by
  obtain ⟨sid, scookie, sexec, scap⟩ := sd
  simp only [getCookieAndExecution] at h
  cases hc : extractCookie env.page.setCookie with
  | none => simp only [hc] at h; exact Except.noConfusion h
  | some cookie =>
    simp only [hc] at h
    cases he : extractExecution env.page.body with
    | none => simp only [he] at h; exact Except.noConfusion h
    | some execution =>
      simp only [he] at h
      cases hid : extractCaptchaId env.page.body with
      | none =>
        simp only [hid] at h
        injection h with h2
        injection h2 with h3 h4 h5 h6
        subst h4; subst h5
        exact ⟨rfl, rfl⟩
      | some cid =>
        simp only [hid] at h
        by_cases hcid : cid = ""
        · simp only [if_pos hcid] at h
          injection h with h2
          injection h2 with h3 h4 h5 h6
          subst h4; subst h5
          exact ⟨rfl, rfl⟩
        · simp only [if_neg hcid] at h
          cases ho : opts.bind (fun o => o.onCaptcha) with
          | some cb =>
            simp only [ho] at h
            cases hcb : cb (captchaUrlOf cid env.rand) cookie with
            | ok t =>
              simp only [hcb] at h
              injection h with h2
              injection h2 with h3 h4 h5 h6
              subst h4; subst h5
              exact ⟨rfl, rfl⟩
            | error e => simp only [hcb] at h; exact Except.noConfusion h
          | none =>
            simp only [ho] at h
            cases ho2 : opts.bind (fun o => o.ocr) with
            | some cfg =>
              simp only [ho2] at h
              cases hr : (ocrRun (fun i => ocrOnce (env.ocrResp i))
                  (effectiveMaxRetries cfg.maxRetries)).1 with
              | ok t =>
                simp only [hr] at h
                injection h with h2
                injection h2 with h3 h4 h5 h6
                subst h4; subst h5
                exact ⟨rfl, rfl⟩
              | error e => simp only [hr] at h; exact Except.noConfusion h
            | none => simp only [ho2] at h; exact Except.noConfusion h

/-- Whenever bootstrap succeeds, login performs the credential submission with
exactly that session's body and cookie. -/
theorem login_post_mem {env : LoginEnv} {opts : Option LoginOptions}
    {sd : SessionData} {ev : List Event}
    (hg : getCookieAndExecution env opts = (Except.ok sd, ev)) (u p : String) :
    Event.postCredentials (fullSubmitBody u p sd.captcha sd.execution) sd.cookie ∈
      (login env u p opts).2 := by
  unfold login
  rw [hg]
  cases hs : submitOutcome env.submit with
  | error e => simp
  | ok ticket =>
    by_cases hok : env.tokenTicketResp.ok
    · simp only [hok, if_true, getUserRoles]
      by_cases hok2 : env.rolesResp.ok
      · simp only [hok2, if_true]
        cases hpl : env.rolesResp.payload with
        | nil => simp
        | cons r0 rs =>
          dsimp only
          cases hr : refresh ⟨env.refreshRolesResp, env.refreshTokenResp⟩
              env.tokenTicketResp.payload.refresh_token
              (some ((opts.bind (fun o => o.role)).getD r0.roleName)) with
          | mk res evf =>
            cases res <;> simp
      · simp only [hok2, if_false]
        simp
    · simp only [hok, if_false]
      simp

/-- C7: getUserRoles is deterministic in the backend response, so two
successive calls with the same token against a stable backend return the same
ordered role list, namely the data field of the response, order preserved. -/
theorem C7_getUserRoles_idempotent :
    (∀ (r1 r2 : HttpJsonResp (List RoleInfo)) (token : String), r1 = r2 →
      (getUserRoles r1 token).1 = (getUserRoles r2 token).1) ∧
    (∀ (resp : HttpJsonResp (List RoleInfo)) (token : String), resp.ok = true →
      (getUserRoles resp token).1 = Except.ok resp.payload) := by
  constructor
  · intro r1 r2 token h
    rw [h]
  · intro resp token h
    simp [getUserRoles, h]

/-- Witness for C7 at a concrete role-listing response. -/
theorem C7_getUserRoles_idempotent_witness :
    (getUserRoles okRoles "RT1").1 = (getUserRoles okRoles "RT1").1 ∧
    (getUserRoles okRoles "RT1").1 = Except.ok [sampleRole] :=
  ⟨C7_getUserRoles_idempotent.1 okRoles okRoles "RT1" rfl,
   C7_getUserRoles_idempotent.2 okRoles "RT1" rfl⟩

/-- C3: refresh with a role absent from the caller's role list fails with the
role-not-found error kind and performs no token-endpoint request at all, so
no identity parameter is ever sent. -/
theorem C3_refresh_role_not_found :
    ∀ (env : RefreshEnv) (token : String) (ro : Role),
      env.rolesResp.ok = true →
      (∀ r ∈ env.rolesResp.payload, r.roleName ≠ ro) →
      refresh env token (some ro) =
        (Except.error (Err.refreshRoleNotFound ro), [Event.fetchRoles token]) ∧
      (Err.refreshRoleNotFound ro).kind = ErrKind.roleNotFoundError ∧
      ∀ e ∈ (refresh env token (some ro)).2, ∀ rt oid, e ≠ Event.postTokenRefresh rt oid := by
  intro env token ro hok habs
  have hfind : env.rolesResp.payload.find? (fun r => decide (r.roleName = ro)) = none := by
    rw [List.find?_eq_none]
    intro r hr
    simp [habs r hr]
  have hmain : refresh env token (some ro) =
      (Except.error (Err.refreshRoleNotFound ro), [Event.fetchRoles token]) := by
    simp [refresh, getUserRoles, hok, hfind]
  refine ⟨hmain, rfl, ?_⟩
  rw [hmain]
  intro e he rt oid
  simp only [List.mem_singleton] at he
  subst he
  simp

/-- Witness for C3: the teacher role is requested but only a student role is
listed. -/
theorem C3_refresh_role_not_found_witness :
    refresh ⟨okRoles, okUser⟩ "RT1" (some Role.Teacher) =
      (Except.error (Err.refreshRoleNotFound Role.Teacher), [Event.fetchRoles "RT1"]) ∧
    (Err.refreshRoleNotFound Role.Teacher).kind = ErrKind.roleNotFoundError ∧
    ∀ e ∈ (refresh ⟨okRoles, okUser⟩ "RT1" (some Role.Teacher)).2,
      ∀ rt oid, e ≠ Event.postTokenRefresh rt oid :=
  C3_refresh_role_not_found ⟨okRoles, okUser⟩ "RT1" Role.Teacher rfl (by decide)

/-- C5: a missing set-cookie header, or one whose first semicolon-delimited
segment is empty, makes login fail with the protocol-error kind after only the
page fetch, so the credential submission is never issued. -/
theorem C5_no_cookie_protocol :
    (extractCookie none = none) ∧
    (∀ s : String, cookieFirstSegment s = "" → extractCookie (some s) = none) ∧
    (∀ (env : LoginEnv) (u p : String) (opts : Option LoginOptions),
      extractCookie env.page.setCookie = none →
      login env u p opts = (Except.error Err.loginNoCookie, [Event.fetchLoginPage]) ∧
      Err.loginNoCookie.kind = ErrKind.protocolError ∧
      ∀ e ∈ (login env u p opts).2, ∀ b c, e ≠ Event.postCredentials b c) := by
  refine ⟨rfl, ?_, ?_⟩
  · intro s h
    simp [extractCookie, h]
  · intro env u p opts h
    have hb : getCookieAndExecution env opts =
        (Except.error Err.loginNoCookie, [Event.fetchLoginPage]) := by
      simp [getCookieAndExecution, h]
    have hl : login env u p opts = (Except.error Err.loginNoCookie, [Event.fetchLoginPage]) := by
      simp [login, hb]
    refine ⟨hl, rfl, ?_⟩
    rw [hl]
    intro e he b c
    simp only [List.mem_singleton] at he
    subst he
    simp

/-- Witness for C5 at an environment whose login page sets no cookie. -/
theorem C5_no_cookie_protocol_witness :
    login envNoCookie "u" "p" none = (Except.error Err.loginNoCookie, [Event.fetchLoginPage]) ∧
    Err.loginNoCookie.kind = ErrKind.protocolError ∧
    ∀ e ∈ (login envNoCookie "u" "p" none).2, ∀ b c, e ≠ Event.postCredentials b c :=
  C5_no_cookie_protocol.2.2 envNoCookie "u" "p" none rfl

/-- C4: a captcha challenge with neither resolver configured makes login fail
with the configuration-error kind after only the page fetch, before any
credential submission. -/
theorem C4_captcha_config_error :
    ∀ (env : LoginEnv) (u p cookie exec cid : String) (opts : Option LoginOptions),
      extractCookie env.page.setCookie = some cookie →
      extractExecution env.page.body = some exec →
      extractCaptchaId env.page.body = some cid → cid ≠ "" →
      opts.bind (fun o => o.onCaptcha) = none →
      opts.bind (fun o => o.ocr) = none →
      login env u p opts = (Except.error Err.loginCaptchaUnconfigured, [Event.fetchLoginPage]) ∧
      Err.loginCaptchaUnconfigured.kind = ErrKind.configError ∧
      ∀ e ∈ (login env u p opts).2, ∀ b c, e ≠ Event.postCredentials b c := by
  intro env u p cookie exec cid opts hc he hid hcid h1 h2
  have hb : getCookieAndExecution env opts =
      (Except.error Err.loginCaptchaUnconfigured, [Event.fetchLoginPage]) := by
    simp [getCookieAndExecution, hc, he, hid, hcid, h1, h2]
  have hl : login env u p opts =
      (Except.error Err.loginCaptchaUnconfigured, [Event.fetchLoginPage]) := by
    simp [login, hb]
  refine ⟨hl, rfl, ?_⟩
  rw [hl]
  intro e he2 b c
  simp only [List.mem_singleton] at he2
  subst he2
  simp

/-- Witness for C4 at a captcha page with no resolver configured. -/
theorem C4_captcha_config_error_witness :
    login envCaptcha "u" "p" none =
      (Except.error Err.loginCaptchaUnconfigured, [Event.fetchLoginPage]) ∧
    Err.loginCaptchaUnconfigured.kind = ErrKind.configError ∧
    ∀ e ∈ (login envCaptcha "u" "p" none).2, ∀ b c, e ≠ Event.postCredentials b c :=
  C4_captcha_config_error envCaptcha "u" "p" "JSESSIONID=x" "EXEC1" "cap1" none
    (by decide) (by decide) (by decide) (by decide) rfl rfl

/-- C1: the submission-response taxonomy of login. A 401 whose alert-danger
message is exactly Invalid credentials yields the invalid-credentials kind; a
401 with any other non-empty extracted message yields the auth-server kind
carrying that message; any other non-302 status yields the auth-server kind
carrying the status; a 302 whose location has no ticket parameter yields the
protocol-error kind; and the four cases are pairwise distinguishable, both by
kind and by the concrete message the source attaches. -/
theorem C1_submit_error_taxonomy :
    (∀ resp : SubmitResp, resp.status = 401 →
      extractAlertDanger resp.body = some "Invalid credentials." →
      submitOutcome resp = Except.error Err.loginInvalidCredentials ∧
      Err.loginInvalidCredentials.kind = ErrKind.invalidCredentialsError) ∧
    (∀ (resp : SubmitResp) (m : String), resp.status = 401 →
      extractAlertDanger resp.body = some m → m ≠ "Invalid credentials." → m ≠ "" →
      submitOutcome resp = Except.error (Err.loginAuthMessage m) ∧
      (Err.loginAuthMessage m).kind = ErrKind.authServerError ∧
      (Err.loginAuthMessage m).message = "登录失败(4): " ++ m) ∧
    (∀ resp : SubmitResp, resp.status ≠ 302 → resp.status ≠ 401 →
      submitOutcome resp =
        Except.error (Err.loginStatus resp.status resp.statusText (extractAlertDanger resp.body)) ∧
      (Err.loginStatus resp.status resp.statusText (extractAlertDanger resp.body)).kind =
        ErrKind.authServerError) ∧
    (∀ (resp : SubmitResp) (loc : String), resp.status = 302 → resp.location = some loc →
      loc ≠ "" → getParam (urlSearch loc) "ticket" = none →
      submitOutcome resp = Except.error Err.loginNoTicket ∧
      Err.loginNoTicket.kind = ErrKind.protocolError) ∧
    (∀ (m : String) (st : Nat) (stx : String) (eo : Option String),
      Err.loginInvalidCredentials.message ≠ (Err.loginAuthMessage m).message ∧
      Err.loginInvalidCredentials.message ≠ (Err.loginStatus st stx eo).message ∧
      Err.loginInvalidCredentials.message ≠ Err.loginNoTicket.message ∧
      (Err.loginAuthMessage m).message ≠ (Err.loginStatus st stx eo).message ∧
      (Err.loginAuthMessage m).message ≠ Err.loginNoTicket.message ∧
      (Err.loginStatus st stx eo).message ≠ Err.loginNoTicket.message) ∧
    (ErrKind.invalidCredentialsError ≠ ErrKind.authServerError ∧
     ErrKind.invalidCredentialsError ≠ ErrKind.protocolError ∧
     ErrKind.authServerError ≠ ErrKind.protocolError) := by
  refine ⟨?_, ?_, ?_, ?_, ?_, by decide⟩
  · intro resp h1 h2
    refine ⟨?_, rfl⟩
    simp [submitOutcome, h1, h2]
  · intro resp m h1 h2 hne hne2
    refine ⟨?_, rfl, rfl⟩
    simp [submitOutcome, h1, h2, hne, hne2]
  · intro resp h1 h2
    refine ⟨?_, rfl⟩
    simp [submitOutcome, h1, h2]
  · intro resp loc h1 h2 h3 h4
    refine ⟨?_, rfl⟩
    simp [submitOutcome, h1, h2, h3, h4]
  · intro m st stx eo
    have einv : Err.loginInvalidCredentials.message =
        "登录失败(3): " ++ "用户名或者密码错误" := by decide
    have etk : Err.loginNoTicket.message = "登录失败(6): " ++ "无法获取到ticket" := by decide
    have eam : (Err.loginAuthMessage m).message = "登录失败(4): " ++ m := rfl
    have est : (Err.loginStatus st stx eo).message =
        "登录失败(1): " ++ (toString st ++ (" " ++ (stx ++ statusTail eo))) := rfl
    refine ⟨?_, ?_, ?_, ?_, ?_, ?_⟩
    · rw [einv, eam]
      exact append_left_ne (by decide) (by decide) _ _
    · rw [einv, est]
      exact append_left_ne (by decide) (by decide) _ _
    · rw [einv, etk]
      exact append_left_ne (by decide) (by decide) _ _
    · rw [eam, est]
      exact append_left_ne (by decide) (by decide) _ _
    · rw [eam, etk]
      exact append_left_ne (by decide) (by decide) _ _
    · rw [est, etk]
      exact append_left_ne (by decide) (by decide) _ _

/-- Witness for C1 at four concrete submission responses, one per case. -/
theorem C1_submit_error_taxonomy_witness :
    submitOutcome submit401Invalid = Except.error Err.loginInvalidCredentials ∧
    submitOutcome submit401Other = Except.error (Err.loginAuthMessage "Account locked.") ∧
    submitOutcome submit500 =
      Except.error (Err.loginStatus submit500.status submit500.statusText
        (extractAlertDanger submit500.body)) ∧
    submitOutcome submit302NoTicket = Except.error Err.loginNoTicket :=
  ⟨(C1_submit_error_taxonomy.1 submit401Invalid rfl (by decide)).1,
   (C1_submit_error_taxonomy.2.1 submit401Other "Account locked." rfl (by decide)
      (by decide) (by decide)).1,
   (C1_submit_error_taxonomy.2.2.1 submit500 (by decide) (by decide)).1,
   (C1_submit_error_taxonomy.2.2.2.1 submit302NoTicket "https://ucloud.bupt.edu.cn/?foo=bar"
      rfl rfl (by decide) (by decide)).1⟩

/-- C9: with both resolvers configured, the callback strategy takes
precedence: the bootstrap invokes the callback, never contacts the OCR
endpoint, and its outcome does not depend on the OCR responses at all. -/
theorem C9_onCaptcha_precedence :
    ∀ (env : LoginEnv) (opts : LoginOptions) (cb : String → String → Except Err String)
      (cfg : OcrConfig) (cookie exec cid : String),
      opts.onCaptcha = some cb → opts.ocr = some cfg →
      extractCookie env.page.setCookie = some cookie →
      extractExecution env.page.body = some exec →
      extractCaptchaId env.page.body = some cid → cid ≠ "" →
      getCookieAndExecution env (some opts) =
        ((match cb (captchaUrlOf cid env.rand) cookie with
          | Except.ok t => Except.ok ⟨cid, cookie, exec, some t⟩
          | Except.error e => Except.error e),
         [Event.fetchLoginPage, Event.callOnCaptcha (captchaUrlOf cid env.rand) cookie]) ∧
      (∀ g, getCookieAndExecution { env with ocrResp := g } (some opts) =
        getCookieAndExecution env (some opts)) ∧
      (∀ url tok ck, Event.fetchOcr url tok ck ∉ (getCookieAndExecution env (some opts)).2) := by
  intro env opts cb cfg cookie exec cid hcb hocr hc he hid hcid
  have hgen : ∀ e2 : LoginEnv, e2.page = env.page → e2.rand = env.rand →
      getCookieAndExecution e2 (some opts) =
        ((match cb (captchaUrlOf cid env.rand) cookie with
          | Except.ok t => Except.ok ⟨cid, cookie, exec, some t⟩
          | Except.error e => Except.error e),
         [Event.fetchLoginPage, Event.callOnCaptcha (captchaUrlOf cid env.rand) cookie]) := by
    intro e2 hp hr
    simp [getCookieAndExecution, hp, hr, hc, he, hid, hcid, hcb]
  refine ⟨hgen env rfl rfl, ?_, ?_⟩
  · intro g
    rw [hgen { env with ocrResp := g } rfl rfl, hgen env rfl rfl]
  · intro url tok ck
    rw [hgen env rfl rfl]
    simp

/-- Witness for C9: both strategies configured; no OCR fetch happens and the
outcome ignores the OCR environment. -/
theorem C9_onCaptcha_precedence_witness :
    Event.fetchOcr (captchaUrlOf "cap1" envCaptcha.rand) "tok" "JSESSIONID=x" ∉
      (getCookieAndExecution envCaptcha (some optsBoth)).2 ∧
    getCookieAndExecution { envCaptcha with ocrResp := fun _ => Except.error Err.thrownNull }
        (some optsBoth) =
      getCookieAndExecution envCaptcha (some optsBoth) := by
  have h := C9_onCaptcha_precedence envCaptcha optsBoth (fun _ _ => Except.ok "X1")
    ⟨"tok", none⟩ "JSESSIONID=x" "EXEC1" "cap1" rfl rfl (by decide) (by decide)
    (by decide) (by decide)
  exact ⟨h.2.2 _ _ _, h.2.1 _⟩

/-- C10: a configured retry bound of zero is falsy and replaced by the default
of three, so three OCR attempts are performed when they all fail; and whenever
the OCR strategy is selected at all, at least one OCR request is issued. -/
theorem C10_falsy_maxRetries_default :
    (effectiveMaxRetries (some 0) = 3 ∧ effectiveMaxRetries none = 3) ∧
    (∀ (env : LoginEnv) (opts : LoginOptions) (cfg : OcrConfig) (cookie exec cid : String) (e : Err),
      opts.onCaptcha = none → opts.ocr = some cfg → cfg.maxRetries = some 0 →
      extractCookie env.page.setCookie = some cookie →
      extractExecution env.page.body = some exec →
      extractCaptchaId env.page.body = some cid → cid ≠ "" →
      (∀ i, i < 2 → ∃ e2, ocrOnce (env.ocrResp i) = Except.error e2) →
      ocrOnce (env.ocrResp 2) = Except.error e →
      getCookieAndExecution env (some opts) =
        (Except.error e,
         [Event.fetchLoginPage,
          Event.fetchOcr (captchaUrlOf cid env.rand) cfg.token cookie,
          Event.fetchOcr (captchaUrlOf cid env.rand) cfg.token cookie,
          Event.fetchOcr (captchaUrlOf cid env.rand) cfg.token cookie])) ∧
    (∀ (env : LoginEnv) (opts : LoginOptions) (cfg : OcrConfig) (cookie exec cid : String),
      opts.onCaptcha = none → opts.ocr = some cfg →
      extractCookie env.page.setCookie = some cookie →
      extractExecution env.page.body = some exec →
      extractCaptchaId env.page.body = some cid → cid ≠ "" →
      Event.fetchOcr (captchaUrlOf cid env.rand) cfg.token cookie ∈
        (getCookieAndExecution env (some opts)).2) := by
  refine ⟨⟨rfl, rfl⟩, ?_, ?_⟩
  · intro env opts cfg cookie exec cid e honc hocr hmr hc he hid hcid herr hlast
    have hrun : ocrRun (fun i => ocrOnce (env.ocrResp i)) 3 = (Except.error e, 3) := by
      have := ocrLoopGo_all_fail (fun i => ocrOnce (env.ocrResp i)) 3 0 e (by omega)
        (fun i hi => by simpa using herr i (by omega))
        (by simpa using hlast)
      simpa [ocrRun] using this
    simp [getCookieAndExecution, hc, he, hid, hcid, honc, hocr, hmr, hrun,
      effectiveMaxRetries, List.range_succ]
  · intro env opts cfg cookie exec cid honc hocr hc he hid hcid
    have hpos : 0 < (ocrRun (fun i => ocrOnce (env.ocrResp i))
        (effectiveMaxRetries cfg.maxRetries)).2 := by
      have := ocrLoopGo_snd_ge (fun i => ocrOnce (env.ocrResp i))
        (effectiveMaxRetries cfg.maxRetries) 0 (effectiveMaxRetries_pos _)
      simpa [ocrRun] using this
    simp only [getCookieAndExecution, hc, he, hid, if_neg hcid, Option.some_bind,
      honc, hocr]
    refine List.mem_append_right _ ?_
    exact List.mem_map.mpr ⟨0, List.mem_range.mpr hpos, rfl⟩

/-- Witness for C10: a zero retry bound performs exactly three failing OCR
requests and surfaces the last failure. -/
theorem C10_falsy_maxRetries_default_witness :
    effectiveMaxRetries (some 0) = 3 ∧
    getCookieAndExecution envOcrAllFail (some optsOcr0) =
      (Except.error ocrFailErr,
       [Event.fetchLoginPage,
        Event.fetchOcr (captchaUrlOf "cap1" envOcrAllFail.rand) "tok" "JSESSIONID=x",
        Event.fetchOcr (captchaUrlOf "cap1" envOcrAllFail.rand) "tok" "JSESSIONID=x",
        Event.fetchOcr (captchaUrlOf "cap1" envOcrAllFail.rand) "tok" "JSESSIONID=x"]) :=
  ⟨C10_falsy_maxRetries_default.1.1,
   C10_falsy_maxRetries_default.2.1 envOcrAllFail optsOcr0 ⟨"tok", some 0⟩
     "JSESSIONID=x" "EXEC1" "cap1" ocrFailErr rfl rfl rfl (by decide) (by decide)
     (by decide) (by decide) (fun i _ => ⟨ocrFailErr, rfl⟩) rfl⟩

/-- C8 (amended): the challenge URL is the fixed endpoint, the extracted id,
and the cache-busting suffix being characters two through six of the random
value's decimal string. That suffix has at most five characters, and it is a
five-digit numeric string whenever the random decimal expansion has at least
five fractional digits; it can be shorter for other random values. -/
theorem C8_captcha_url_shape :
    ∀ (env : LoginEnv) (opts : LoginOptions) (cb : String → String → Except Err String)
      (cookie exec cid : String),
      opts.onCaptcha = some cb →
      extractCookie env.page.setCookie = some cookie →
      extractExecution env.page.body = some exec →
      extractCaptchaId env.page.body = some cid → cid ≠ "" →
      Event.callOnCaptcha
        ("https://auth.bupt.edu.cn/authserver/captcha?captchaId=" ++ cid ++ "&r=" ++
          jsSlice env.rand 2 7) cookie ∈
        (getCookieAndExecution env (some opts)).2 ∧
      (jsSlice env.rand 2 7).length ≤ 5 ∧
      (∀ d : String, env.rand = "0." ++ d → 5 ≤ d.length →
        (∀ c ∈ d.data, c.isDigit = true) → isFiveDigit (jsSlice env.rand 2 7)) := by
  intro env opts cb cookie exec cid hcb hc he hid hcid
  refine ⟨?_, ?_, ?_⟩
  · simp [getCookieAndExecution, hc, he, hid, hcid, hcb, captchaUrlOf]
  · have h1 : (jsSlice env.rand 2 7).length = ((env.rand.data.drop 2).take 5).length := rfl
    rw [h1, List.length_take]
    omega
  · intro d hrand hlen hdig
    have hd : ("0." ++ d).data = '0' :: '.' :: d.data := by
      rw [String.data_append]
      rfl
    have hslice : jsSlice env.rand 2 7 = String.mk (d.data.take 5) := by
      rw [hrand]
      simp [jsSlice, hd]
    rw [hslice]
    have hL : d.length = d.data.length := rfl
    constructor
    · show (d.data.take 5).length = 5
      rw [List.length_take]
      omega
    · intro c hcmem
      exact hdig c (List.take_subset 5 d.data hcmem)

/-- Witness for C8 at the captcha environment, whose random value has a long
decimal expansion, so the suffix there is five digits. -/
theorem C8_captcha_url_shape_witness :
    Event.callOnCaptcha
      ("https://auth.bupt.edu.cn/authserver/captcha?captchaId=" ++ "cap1" ++ "&r=" ++
        jsSlice envCaptcha.rand 2 7) "JSESSIONID=x" ∈
      (getCookieAndExecution envCaptcha (some optsCb)).2 ∧
    (jsSlice envCaptcha.rand 2 7).length ≤ 5 ∧
    isFiveDigit (jsSlice envCaptcha.rand 2 7) := by
  have h := C8_captcha_url_shape envCaptcha optsCb (fun _ _ => Except.ok "X1")
    "JSESSIONID=x" "EXEC1" "cap1" rfl (by decide) (by decide) (by decide) (by decide)
  exact ⟨h.1, h.2.1, h.2.2 "1234567890123" (by decide) (by decide) (by decide)⟩

/-- Counterexample for C8 as stated: the random source can yield the string
of one half, whose slice from position two to seven is the single character
five, not a five-digit numeric string; the URL actually used carries it. -/
theorem C8_counterexample :
    (getCookieAndExecution envRandHalf (some optsCb)).2 =
      [Event.fetchLoginPage,
       Event.callOnCaptcha
         ("https://auth.bupt.edu.cn/authserver/captcha?captchaId=" ++ "cap1" ++ "&r=" ++
           jsSlice "0.5" 2 7) "JSESSIONID=x"] ∧
    jsSlice "0.5" 2 7 = "5" ∧
    ¬ isFiveDigit "5" := by
  exact ⟨by decide, by decide, by decide⟩

/-- C2: OCR retry semantics. If attempt k (one-based, within the bound n) is
the first to yield usable text, the loop returns that text after exactly k
attempts and earlier failures are discarded; if all n attempts fail, the loop
raises exactly the last attempt's error after n attempts. In particular, with
a bound of three, two failures followed by a success yield a successful login
whose submitted form carries the third attempt's text. -/
theorem C2_ocr_retry_semantics :
    (∀ (f : Nat → Except Err String) (n k : Nat) (t : String),
      1 ≤ k → k ≤ n →
      (∀ i, i < k - 1 → ∃ e, f i = Except.error e) →
      f (k - 1) = Except.ok t →
      ocrRun f n = (Except.ok t, k)) ∧
    (∀ (f : Nat → Except Err String) (n : Nat) (e : Err),
      1 ≤ n →
      (∀ i, i < n - 1 → ∃ e2, f i = Except.error e2) →
      f (n - 1) = Except.error e →
      ocrRun f n = (Except.error e, n)) ∧
    (∀ (env : LoginEnv) (opts : LoginOptions) (cfg : OcrConfig)
       (u p cookie exec cid t ticket : String) (r0 ri : RoleInfo) (rs : List RoleInfo),
      opts.onCaptcha = none → opts.ocr = some cfg → opts.role = none →
      effectiveMaxRetries cfg.maxRetries = 3 →
      extractCookie env.page.setCookie = some cookie →
      extractExecution env.page.body = some exec →
      extractCaptchaId env.page.body = some cid → cid ≠ "" →
      (∀ i, i < 2 → ∃ e, ocrOnce (env.ocrResp i) = Except.error e) →
      ocrOnce (env.ocrResp 2) = Except.ok t →
      submitOutcome env.submit = Except.ok ticket →
      env.tokenTicketResp.ok = true →
      env.rolesResp.ok = true →
      env.rolesResp.payload = r0 :: rs →
      env.refreshRolesResp.ok = true →
      env.refreshRolesResp.payload.find? (fun r => decide (r.roleName = r0.roleName)) = some ri →
      env.refreshTokenResp.ok = true →
      (login env u p (some opts)).1 =
        Except.ok ⟨env.refreshTokenResp.payload, r0 :: rs⟩ ∧
      Event.postCredentials (fullSubmitBody u p (some t) exec) cookie ∈
        (login env u p (some opts)).2) := by
  refine ⟨?_, ?_, ?_⟩
  · intro f n k t h1 h2 herr hok
    have h0 := ocrLoopGo_first_ok f (k - 1) n 0 t (by omega)
      (fun i hi => by simpa using herr i hi)
      (by simpa using hok)
    rw [show k = k - 1 + 1 by omega]
    simpa [ocrRun] using h0
  · intro f n e h1 herr hlast
    have := ocrLoopGo_all_fail f n 0 e (by omega)
      (fun i hi => by simpa using herr i hi)
      (by simpa using hlast)
    simpa [ocrRun] using this
  · intro env opts cfg u p cookie exec cid t ticket r0 ri rs honc hocr hrole hmr
      hc he hid hcid herr hok3 hsub htok hroles hpl hrro hfind hrtok
    have hrun : ocrRun (fun i => ocrOnce (env.ocrResp i)) 3 = (Except.ok t, 3) := by
      have := ocrLoopGo_first_ok (fun i => ocrOnce (env.ocrResp i)) 2 3 0 t (by omega)
        (fun i hi => by simpa using herr i (by omega))
        (by simpa using hok3)
      simpa [ocrRun] using this
    have hboot : getCookieAndExecution env (some opts) =
        (Except.ok ⟨cid, cookie, exec, some t⟩,
         [Event.fetchLoginPage] ++
           (List.range 3).map (fun _ => Event.fetchOcr (captchaUrlOf cid env.rand) cfg.token cookie)) := by
      simp [getCookieAndExecution, hc, he, hid, hcid, honc, hocr, hmr, hrun]
    constructor
    · simp [login, hboot, hsub, htok, getUserRoles, hroles, hpl, refresh, hrro, hfind,
        refreshTokenOutcome, hrtok, hrole]
    · exact login_post_mem hboot u p

/-- Witness for C2: a resolver failing on the first two attempts and
succeeding on the third, under a bound of three; an always-failing resolver
surfaces the third attempt's error; the corresponding login succeeds with the
third attempt's text in the submitted form. -/
theorem C2_ocr_retry_semantics_witness :
    ocrRun (fun i => ocrOnce (envOcrThird.ocrResp i)) 3 = (Except.ok "T3", 3) ∧
    ocrRun (fun _ => Except.error ocrFailErr) 3 = (Except.error ocrFailErr, 3) ∧
    (login envOcrThird "u" "p" (some optsOcr3)).1 =
      Except.ok ⟨sampleUser, [sampleRole]⟩ ∧
    Event.postCredentials (fullSubmitBody "u" "p" (some "T3") "EXEC1") "JSESSIONID=x" ∈
      (login envOcrThird "u" "p" (some optsOcr3)).2 := by
  have hi12 : ∀ i, i < 2 → ∃ e, ocrOnce (envOcrThird.ocrResp i) = Except.error e := by
    intro i hi
    have h2 : i ≠ 2 := by omega
    exact ⟨ocrFailErr, by simp [envOcrThird, ocrOnce, h2]⟩
  have h3 := C2_ocr_retry_semantics.2.2 envOcrThird optsOcr3 ⟨"tok", some 3⟩
    "u" "p" "JSESSIONID=x" "EXEC1" "cap1" "T3" "ST-123" sampleRole sampleRole []
    rfl rfl rfl rfl (by decide) (by decide) (by decide) (by decide)
    hi12 (by decide) (by decide) rfl rfl (by decide) rfl (by decide) rfl
  refine ⟨?_, ?_, h3.1, h3.2⟩
  · exact C2_ocr_retry_semantics.1 (fun i => ocrOnce (envOcrThird.ocrResp i)) 3 3 "T3"
      (by omega) (by omega) (fun i hi => hi12 i (by omega)) (by decide)
  · exact C2_ocr_retry_semantics.2.1 (fun _ => Except.error ocrFailErr) 3 ocrFailErr
      (by omega) (fun i _ => ⟨ocrFailErr, rfl⟩) rfl

/-- C6 (amended): a session context that reaches submission always has a
non-empty cookie, and its form token is exactly the captured execution value,
which the source does not check for emptiness and which may therefore be the
empty string. -/
theorem C6_submit_context_cookie :
    ∀ (env : LoginEnv) (opts : Option LoginOptions) (u p : String) (sd : SessionData),
      (getCookieAndExecution env opts).1 = Except.ok sd →
      sd.cookie ≠ "" ∧
      extractCookie env.page.setCookie = some sd.cookie ∧
      extractExecution env.page.body = some sd.execution ∧
      Event.postCredentials (fullSubmitBody u p sd.captcha sd.execution) sd.cookie ∈
        (login env u p opts).2 := by
  intro env opts u p sd h
  obtain ⟨hc, he⟩ := getCookieAndExecution_ok_inv h
  exact ⟨extractCookie_ne_empty hc, hc, he, login_post_mem (pair_of_fst h) u p⟩

/-- Witness for C6 at the empty-execution environment: the cookie invariant
holds there even though the form token is empty. -/
theorem C6_submit_context_cookie_witness :
    ("JSESSIONID=x" : String) ≠ "" ∧
    extractCookie envEmptyExec.page.setCookie = some "JSESSIONID=x" ∧
    extractExecution envEmptyExec.page.body = some "" ∧
    Event.postCredentials (fullSubmitBody "u" "p" none "") "JSESSIONID=x" ∈
      (login envEmptyExec "u" "p" none).2 :=
  C6_submit_context_cookie envEmptyExec none "u" "p" ⟨"", "JSESSIONID=x", "", none⟩ (by decide)

/-- Counterexample for C6 as stated: a login page whose execution input has an
empty value attribute passes the source's checks, so submission is attempted
with an empty form token, violating the claimed non-emptiness invariant. -/
theorem C6_counterexample :
    (getCookieAndExecution envEmptyExec none).1 =
      Except.ok ⟨"", "JSESSIONID=x", "", none⟩ ∧
    ("" : String).length = 0 ∧
    Event.postCredentials (fullSubmitBody "u" "p" none "") "JSESSIONID=x" ∈
      (login envEmptyExec "u" "p" none).2 := by
  exact ⟨by decide, rfl, by decide⟩

end BuptAuth
